import Mathlib

/-!
Shallow embedding of `MLlib/loss_func.py` from devlup-labs/ML-DL-implementation.

Numeric arrays are modelled as `NDArray α`: a shape (list of dimensions) plus a
row-major flat data list; the scalar type `α` is a field (`ℚ` for the exact
rational model of the float computations, `ℝ` where a loss uses transcendental
functions).  numpy's elementwise broadcasting, `np.dot` (up to 2-D operands,
the shapes the module's docstrings use), transpose and reductions are embedded
below.  Fallible numpy operations (shape mismatch, index errors, missing
attributes) are rendered with `Option`/`Except`.

The external collaborators of `loss_func.py` (the `Tensor` differentiable
value, the `unbroadcast` utility and the `Sigmoid` transform) live in this
repository outside the sources at hand; they are modelled from the spec and
marked as such in their doc comments.
-/

set_option maxRecDepth 8000

abbrev Shape := List Nat

/-- numpy broadcasting of two dimension lists given trailing-axis first
(reversed).  Absent axes are treated as present, axes of size 1 stretch. -/
def broadcastDimsRev : List Nat → List Nat → Option (List Nat)
  | [], ys => some ys
  | x :: xs, [] => some (x :: xs)
  | x :: xs, y :: ys =>
    match broadcastDimsRev xs ys with
    | none => none
    | some rest =>
      if x = y then some (x :: rest)
      else if x = 1 then some (y :: rest)
      else if y = 1 then some (x :: rest)
      else none

/-- numpy broadcast of two shapes (leading axis first); `none` when the shapes
are not broadcast-compatible (numpy raises `ValueError`). -/
def broadcastShape (s t : Shape) : Option Shape :=
  (broadcastDimsRev s.reverse t.reverse).map List.reverse

/-- All multi-indices of a shape, in row-major order. -/
def shapeIndices : Shape → List (List Nat)
  | [] => [[]]
  | d :: ds => (List.range d).flatMap fun i => (shapeIndices ds).map fun r => i :: r

/-- Row-major flattening of a multi-index under a shape. -/
def flattenIdx (shape idx : List Nat) : Nat :=
  (List.zip idx shape).foldl (fun acc p => acc * p.2 + p.1) 0

/-- How an array of shape `s` is read at a multi-index of a larger broadcast
shape: extra leading coordinates are dropped and coordinates over axes of
size 1 collapse to 0. -/
def projectIdx (idx : List Nat) (s : Shape) : List Nat :=
  (List.zip (idx.drop (idx.length - s.length)) s).map fun p => if p.2 = 1 then 0 else p.1

/-- An n-dimensional array: a shape and the row-major flat data. -/
structure NDArray (α : Type) where
  shape : Shape
  data : List α
deriving Repr, DecidableEq

/-- Element at a multi-index (0 past the end, a modelling default only). -/
def NDArray.get {α : Type} [Field α] (a : NDArray α) (idx : List Nat) : α :=
  a.data.getD (flattenIdx a.shape idx) 0

/-- Element 1-D view at a flat position. -/
def NDArray.get1 {α : Type} [Field α] (a : NDArray α) (i : Nat) : α :=
  a.data.getD i 0

/-- Broadcast-aware read: index of the broadcast shape, projected down. -/
def NDArray.getB {α : Type} [Field α] (a : NDArray α) (idx : List Nat) : α :=
  a.get (projectIdx idx a.shape)

/-- Elementwise binary operation with numpy broadcasting. -/
def NDArray.ewise {α : Type} [Field α] (f : α → α → α) (a b : NDArray α) :
    Option (NDArray α) :=
  match broadcastShape a.shape b.shape with
  | none => none
  | some s => some ⟨s, (shapeIndices s).map fun i => f (a.getB i) (b.getB i)⟩

/-- Elementwise subtraction (`a - b` in numpy). -/
def NDArray.sub {α : Type} [Field α] (a b : NDArray α) : Option (NDArray α) :=
  NDArray.ewise (fun x y => x - y) a b

/-- Elementwise product (`a * b` in numpy). -/
def NDArray.mul {α : Type} [Field α] (a b : NDArray α) : Option (NDArray α) :=
  NDArray.ewise (fun x y => x * y) a b

/-- Elementwise map (numpy ufunc applied to one array). -/
def NDArray.map {α : Type} (f : α → α) (a : NDArray α) : NDArray α :=
  ⟨a.shape, a.data.map f⟩

/-- Full reduction (`np.sum`). -/
def NDArray.sum {α : Type} [Field α] (a : NDArray α) : α :=
  a.data.sum

/-- A 0-dimensional (scalar) array, as `np.sum` returns. -/
def NDArray.scalar {α : Type} (x : α) : NDArray α :=
  ⟨[], [x]⟩

/-- numpy transpose: reverses the axes of a 2-D array and is the identity on
0-D and 1-D arrays (the ranks this module uses). -/
def NDArray.T {α : Type} [Field α] (a : NDArray α) : NDArray α :=
  match a.shape with
  | [r, c] => ⟨[c, r], (shapeIndices [c, r]).map fun idx => a.get [idx.getD 1 0, idx.getD 0 0]⟩
  | _ => a

/-- `np.dot` for the operand ranks this module uses: 1-D·1-D inner product,
2-D·1-D matrix-vector, 1-D·2-D vector-matrix, 2-D·2-D matrix product.
`none` when the contracted axes disagree (numpy raises `ValueError`). -/
def NDArray.dot {α : Type} [Field α] (a b : NDArray α) : Option (NDArray α) :=
  match a.shape, b.shape with
  | [n], [m] =>
    if n = m then
      some (NDArray.scalar (((List.range n).map fun i => a.get [i] * b.get [i]).sum))
    else none
  | [r, c], [m] =>
    if c = m then
      some ⟨[r], (List.range r).map fun i =>
        ((List.range c).map fun j => a.get [i, j] * b.get [j]).sum⟩
    else none
  | [n], [r, c] =>
    if n = r then
      some ⟨[c], (List.range c).map fun j =>
        ((List.range n).map fun i => a.get [i] * b.get [i, j]).sum⟩
    else none
  | [r, c], [r2, c2] =>
    if c = r2 then
      some ⟨[r, c2], (shapeIndices [r, c2]).map fun idx =>
        ((List.range c).map fun k => a.get [idx.getD 0 0, k] * b.get [k, idx.getD 1 0]).sum⟩
    else none
  | _, _ => none

/-- Modelled from the spec: the external Differentiable Value (`Tensor`, from
the `MLlib` package, not among the sources at hand) wraps a numeric array and
tracks `requires_grad` and `is_leaf`; it is constructed from
`(array, requires_grad, is_leaf)`.  The Python constructor defaults are
`requires_grad=False`, `is_leaf=True`; call sites below pass them explicitly. -/
structure Tensor (α : Type) where
  data : NDArray α
  requires_grad : Bool
  is_leaf : Bool
deriving Repr, DecidableEq

/-- A Python value that may arrive at `forward`: a `Tensor` or a raw
`numpy.ndarray`. -/
inductive PyVal (α : Type) where
  | tensor : Tensor α → PyVal α
  | ndarray : NDArray α → PyVal α
deriving Repr, DecidableEq

/-- `type(v).__name__` as the source's duck-typed check reads it. -/
def PyVal.typeName {α : Type} : PyVal α → String
  | .tensor _ => "Tensor"
  | .ndarray _ => "ndarray"

/-- Modelled from the spec: the per-invocation context record bridging
`forward` and `backward` (provided by the external `MLlib.autograd`); the MSE
node stores at most the single attribute `derivative_core` in it. -/
structure Ctx (α : Type) where
  derivative_core : Option (NDArray α)
deriving Repr, DecidableEq

/-- Modelled from the spec: the external `unbroadcast` utility
(`MLlib.utils.misc_utils`, not among the sources at hand).  Given a gradient
computed at broadcast shape `S` and a broadcast-compatible target shape `T`,
it returns the array of exact shape `T` obtained by summing every element of
the gradient into the `T`-cell it was broadcast from; a dimension mismatch is
an error (`none`). -/
def unbroadcast {α : Type} [Field α] (grad : NDArray α) (tshape : Shape) :
    Option (NDArray α) :=
  if broadcastShape tshape grad.shape = some grad.shape then
    some ⟨tshape, (shapeIndices tshape).map fun i =>
      (((shapeIndices grad.shape).filter fun j => projectIdx j tshape = i).map
        fun j => grad.get j).sum⟩
  else none

/-- The `RuntimeError` message of `MeanSquaredError.forward`'s type check,
with the two `__name__`s formatted in. -/
def mseTypeErrorMsg (a b : String) : String :=
  "Expected Tensors, got " ++ a ++ " and " ++ b ++
    ". Please use .loss() method for non-Tensor data"

/-- `MeanSquaredError.forward(ctx, prediction, target)`.  Returns the context
as left by the call together with the result (`Except.error` for a raised
Python exception).  The source's duck-typed check `type(x).__name__ == 'Tensor'`
is rendered by matching the `PyVal` constructor, which holds exactly when
`typeName` is `"Tensor"`. -/
def MeanSquaredError.forward (ctx : Ctx ℚ) (prediction target : PyVal ℚ) :
    Ctx ℚ × Except String (Tensor ℚ) :=
  match prediction, target with
  | .tensor p, .tensor t =>
    match t.data.shape.head? with
    | none => (ctx, .error ("IndexError: tuple index out of range"))
    | some batch_size =>
      match NDArray.sub p.data t.data with
      | none => (ctx, .error ("ValueError: operands could not be broadcast together"))
      | some out =>
        let ctx' : Ctx ℚ := if p.requires_grad then ⟨some out⟩ else ctx
        let s : ℚ := (out.map fun x => x ^ 2).sum / (2 * (batch_size : ℚ))
        (ctx', .ok ⟨NDArray.scalar s, p.requires_grad, !p.requires_grad⟩)
  | _, _ =>
    (ctx, .error (mseTypeErrorMsg prediction.typeName target.typeName))

/-- `MeanSquaredError.backward(ctx, grad_output)`. -/
def MeanSquaredError.backward (ctx : Ctx ℚ) (grad_output : Tensor ℚ) :
    Except String (Tensor ℚ) :=
  match ctx.derivative_core with
  | none => .error ("AttributeError: context has no attribute derivative_core")
  | some derivative =>
    match derivative.shape.head? with
    | none => .error ("IndexError: tuple index out of range")
    | some d0 =>
      match NDArray.mul (derivative.map fun x => x / (d0 : ℚ)) grad_output.data with
      | none => .error ("ValueError: operands could not be broadcast together")
      | some gp =>
        match unbroadcast gp derivative.shape with
        | none => .error ("ValueError: dimension mismatch in unbroadcast")
        | some g => .ok ⟨g, false, true⟩

/-- Legacy `MeanSquaredError.loss(X, Y, W) = np.sum((np.dot(X, W).T - Y) ** 2) / (2 * M)`
with `M = X.shape[0]`. -/
def MeanSquaredError.loss (X Y W : NDArray ℚ) : Option ℚ :=
  match X.shape.head? with
  | none => none
  | some M =>
    match NDArray.dot X W with
    | none => none
    | some p =>
      match NDArray.sub p.T Y with
      | none => none
      | some d => some ((d.map fun x => x ^ 2).sum / (2 * (M : ℚ)))

/-- Legacy `MeanSquaredError.derivative(X, Y, W) = np.dot((np.dot(X, W).T - Y), X).T / M`. -/
def MeanSquaredError.derivative (X Y W : NDArray ℚ) : Option (NDArray ℚ) :=
  match X.shape.head? with
  | none => none
  | some M =>
    match NDArray.dot X W with
    | none => none
    | some p =>
      match NDArray.sub p.T Y with
      | none => none
      | some d =>
        match NDArray.dot d X with
        | none => none
        | some g => some (g.T.map fun x => x / (M : ℚ))

/-- `class MSELoss(MeanSquaredError): pass` — every attribute resolves to the
parent's. -/
def MSELoss.forward : Ctx ℚ → PyVal ℚ → PyVal ℚ → Ctx ℚ × Except String (Tensor ℚ) :=
  MeanSquaredError.forward

/-- `MSELoss.backward`, inherited unchanged. -/
def MSELoss.backward : Ctx ℚ → Tensor ℚ → Except String (Tensor ℚ) :=
  MeanSquaredError.backward

/-- `MSELoss.loss`, inherited unchanged. -/
def MSELoss.loss : NDArray ℚ → NDArray ℚ → NDArray ℚ → Option ℚ :=
  MeanSquaredError.loss

/-- `MSELoss.derivative`, inherited unchanged. -/
def MSELoss.derivative : NDArray ℚ → NDArray ℚ → NDArray ℚ → Option (NDArray ℚ) :=
  MeanSquaredError.derivative

/-- The guarded elementwise quotient of `AbsoluteError.derivative`:
`np.divide(r, |r|, out=np.zeros_like(r), where=|r| != 0)` at one element. -/
def guardedSign (r : ℚ) : ℚ :=
  if |r| ≠ 0 then r / |r| else 0

/-- `AbsoluteError.loss(X, Y, W) = np.sum(np.absolute(np.dot(X, W).T - Y)) / M`. -/
def AbsoluteError.loss (X Y W : NDArray ℚ) : Option ℚ :=
  match X.shape.head? with
  | none => none
  | some M =>
    match NDArray.dot X W with
    | none => none
    | some p =>
      match NDArray.sub p.T Y with
      | none => none
      | some d => some ((d.map fun x => |x|).sum / (M : ℚ))

/-- `AbsoluteError.derivative(X, Y, W)`: the residual `np.dot(X, W).T - Y`,
its guarded elementwise sign, `np.dot(sign, X).T / M`. -/
def AbsoluteError.derivative (X Y W : NDArray ℚ) : Option (NDArray ℚ) :=
  match X.shape.head? with
  | none => none
  | some M =>
    match NDArray.dot X W with
    | none => none
    | some p =>
      match NDArray.sub p.T Y with
      | none => none
      | some absError =>
        match NDArray.dot (absError.map guardedSign) X with
        | none => none
        | some g => some (g.T.map fun x => x / (M : ℚ))

/-- `np.sign` on a rational. -/
def qsign (x : ℚ) : ℚ :=
  if x > 0 then 1 else if x < 0 then -1 else 0

/-- One element of `Huber.loss`: `0.5*(x-y)**2` when `|x-y| <= delta`, else
`delta*(|x-y| - 0.5*delta)` (the two arms of the source's `np.where`). -/
def Huber.pointLoss (delta x y : ℚ) : ℚ :=
  if |x - y| ≤ delta then (1 / 2) * (x - y) ^ 2 else delta * (|x - y| - (1 / 2) * delta)

/-- `Huber.loss(X, Y, delta)` — elementwise (per-element array, not reduced),
with numpy broadcasting of `X` and `Y`.  The Python default `delta` is `1.0`;
it is passed explicitly here. -/
def Huber.loss (X Y : NDArray ℚ) (delta : ℚ) : Option (NDArray ℚ) :=
  NDArray.ewise (fun x y => Huber.pointLoss delta x y) X Y

/-- One element of `Huber.derivative`: `x - y` when `|x-y| <= delta`, else
`delta * np.sign(x-y)`. -/
def Huber.pointDerivative (delta x y : ℚ) : ℚ :=
  if |x - y| ≤ delta then x - y else delta * qsign (x - y)

/-- `Huber.derivative(X, Y, delta)` — elementwise with numpy broadcasting. -/
def Huber.derivative (X Y : NDArray ℚ) (delta : ℚ) : Option (NDArray ℚ) :=
  NDArray.ewise (fun x y => Huber.pointDerivative delta x y) X Y

/-- The elementwise logistic sigmoid the external transform applies. -/
noncomputable def sigmoidFn (z : ℝ) : ℝ :=
  1 / (1 + Real.exp (-z))

/-- Modelled from the spec: the external `Sigmoid` transform
(`MLlib.activations`, not among the sources at hand) exposes exactly one
elementwise method, `activation(z) -> array`; looking up any other attribute
name fails (`AttributeError`, rendered as `none`). -/
noncomputable def sigmoidMethod (name : String) : Option (NDArray ℝ → NDArray ℝ) :=
  if name = "activation" then some (fun a => a.map sigmoidFn) else none

/-- `LogarithmicError.loss(X, Y, W) = (1/M)*np.sum((-Y)*np.log(H)-(1-Y)*np.log(1-H))`
with `H = Sigmoid().activation(np.dot(X, W).T)`. -/
noncomputable def LogarithmicError.loss (X Y W : NDArray ℝ) : Option ℝ :=
  match X.shape.head? with
  | none => none
  | some M =>
    match sigmoidMethod "activation" with
    | none => none
    | some act =>
      match NDArray.dot X W with
      | none => none
      | some pr =>
        let H := act pr.T
        match NDArray.mul (Y.map Neg.neg) (H.map Real.log) with
        | none => none
        | some t1 =>
          match NDArray.mul (Y.map fun y => 1 - y) (H.map fun h => Real.log (1 - h)) with
          | none => none
          | some t2 =>
            match NDArray.sub t1 t2 with
            | none => none
            | some s => some ((1 / (M : ℝ)) * s.sum)

/-- `LogarithmicError.derivative(X, Y, W) = (1/M)*np.dot(X.T, (H-Y).T)`. -/
noncomputable def LogarithmicError.derivative (X Y W : NDArray ℝ) : Option (NDArray ℝ) :=
  match X.shape.head? with
  | none => none
  | some M =>
    match sigmoidMethod "activation" with
    | none => none
    | some act =>
      match NDArray.dot X W with
      | none => none
      | some pr =>
        let H := act pr.T
        match NDArray.sub H Y with
        | none => none
        | some hy =>
          match NDArray.dot X.T hy.T with
          | none => none
          | some g => some (g.map fun x => (1 / (M : ℝ)) * x)

/-- `CosineSimilarity.loss(X, Y, W)`: `H = Sigmoid().activation(np.dot(X, W).T)`,
`DP = np.sum(np.dot(H, Y))`, `S = DP/((sum H^2)**0.5 * (sum Y^2)**0.5)`,
result `(1-S)*(sum Y^2)**0.5`. -/
noncomputable def CosineSimilarity.loss (X Y W : NDArray ℝ) : Option ℝ :=
  match sigmoidMethod "activation" with
  | none => none
  | some act =>
    match NDArray.dot X W with
    | none => none
    | some pr =>
      let H := act pr.T
      match NDArray.dot H Y with
      | none => none
      | some dp =>
        let DP := dp.sum
        let normH := Real.rpow ((H.map fun x => x ^ 2).sum) (1 / 2)
        let normY := Real.rpow ((Y.map fun x => x ^ 2).sum) (1 / 2)
        let S := DP / (normH * normY)
        some ((1 - S) * normY)

/-- `Log_cosh.logcosh_loss(X, Y) = np.sum(np.log(np.cosh(Y - X)))`. -/
noncomputable def Log_cosh.logcosh_loss (X Y : NDArray ℝ) : Option ℝ :=
  match NDArray.sub Y X with
  | none => none
  | some d => some ((d.map fun z => Real.log (Real.cosh z)).sum)

/-- `Log_cosh.derivative_logcosh(X, Y) = np.sum(np.tanh(Y - X))`. -/
noncomputable def Log_cosh.derivative_logcosh (X Y : NDArray ℝ) : Option ℝ :=
  match NDArray.sub Y X with
  | none => none
  | some d => some ((d.map Real.tanh).sum)

/-- `MeanSquaredLogLoss.loss(X, Y, W)`.  The source reads `X.shape[0]`, then
evaluates `sigmoid.activations` — an attribute the external `Sigmoid`
transform does not provide (its interface is `activation`), so the attribute
lookup raises before the dot product is taken; the remaining lines embed
`np.sqrt((1 / M) * np.sum(np.log(Y + 1) - np.log(H + 1)))`. -/
noncomputable def MeanSquaredLogLoss.loss (X Y W : NDArray ℝ) : Except String ℝ :=
  match X.shape.head? with
  | none => .error ("IndexError: tuple index out of range")
  | some M =>
    match sigmoidMethod "activations" with
    | none => .error ("AttributeError: type object Sigmoid has no attribute activations")
    | some act =>
      match NDArray.dot X W with
      | none => .error ("ValueError: shapes not aligned")
      | some pr =>
        let H := act pr.T
        match NDArray.sub (Y.map fun y => Real.log (y + 1)) (H.map fun h => Real.log (h + 1)) with
        | none => .error ("ValueError: operands could not be broadcast together")
        | some s => .ok (Real.sqrt ((1 / (M : ℝ)) * s.sum))

/-! ### Helper lemmas -/

theorem broadcastDimsRev_nil_right (r : List Nat) : broadcastDimsRev r [] = some r := by
  cases r <;> rfl

theorem broadcastShape_nil_right (s : Shape) : broadcastShape s [] = some s := by
  simp [broadcastShape, broadcastDimsRev_nil_right]

theorem broadcastDimsRev_self (r : List Nat) : broadcastDimsRev r r = some r := by
  induction r with
  | nil => rfl
  | cons x xs ih => simp [broadcastDimsRev, ih]

theorem broadcastShape_self (s : Shape) : broadcastShape s s = some s := by
  simp [broadcastShape, broadcastDimsRev_self]

theorem NDArray.T_of_rank_le_one {α : Type} [Field α] (a : NDArray α)
    (h : a.shape.length ≤ 1) : a.T = a := by
  obtain ⟨s, d⟩ := a
  match s with
  | [] => rfl
  | [x] => rfl
  | x :: y :: ys => simp at h

/-! ### Claim theorems -/

/-- C1: for every pair of Tensor inputs on which the claimed expression is
defined (the target has a leading axis and the data broadcast-subtract), the
MSE `forward` returns a Tensor whose data is the 0-D scalar
`sum((prediction.data - target.data)^2) / (2 * batch_size)` with
`batch_size = target.data.shape[0]`, whose `requires_grad` equals the
prediction's, and whose `is_leaf` is its negation. -/
theorem mse_forward_formula (ctx : Ctx ℚ) (p t : Tensor ℚ) (b : Nat) (d : NDArray ℚ)
    (hb : t.data.shape.head? = some b)
    (hd : NDArray.sub p.data t.data = some d) :
    (MeanSquaredError.forward ctx (.tensor p) (.tensor t)).2 =
      Except.ok ⟨NDArray.scalar ((d.map fun x => x ^ 2).sum / (2 * (b : ℚ))),
        p.requires_grad, !p.requires_grad⟩ := by
  simp [MeanSquaredError.forward, hb, hd]

/-- Witness for C1 at prediction data `[3, 5]`, target data `[0, 0]`
(difference `[3, 5]`, batch size 2). -/
theorem mse_forward_formula_spot :
    (MeanSquaredError.forward ⟨none⟩
        (.tensor ⟨⟨[2], [3, 5]⟩, true, false⟩)
        (.tensor ⟨⟨[2], [0, 0]⟩, false, true⟩)).2 =
      Except.ok ⟨NDArray.scalar
          (((NDArray.map (fun x => x ^ 2) ⟨[2], [3, 5]⟩).sum) / (2 * ((2 : Nat) : ℚ))),
        true, !true⟩ :=
  mse_forward_formula ⟨none⟩ ⟨⟨[2], [3, 5]⟩, true, false⟩ ⟨⟨[2], [0, 0]⟩, false, true⟩
    2 ⟨[2], [3, 5]⟩ (by decide)
    (by simp [NDArray.sub, NDArray.ewise, broadcastShape, broadcastDimsRev, shapeIndices,
      NDArray.getB, NDArray.get, projectIdx, flattenIdx, List.range_succ])

/-- C3: when the prediction or the target is not a Tensor, `forward` reports
the type error synchronously, with a message naming each argument's type, and
never yields an output value (no silent coercion). -/
theorem mse_forward_type_error (ctx : Ctx ℚ) (prediction target : PyVal ℚ)
    (h : ¬(prediction.typeName = "Tensor" ∧ target.typeName = "Tensor")) :
    (MeanSquaredError.forward ctx prediction target).2 =
      Except.error (mseTypeErrorMsg prediction.typeName target.typeName)
    ∧ ∀ r : Tensor ℚ, (MeanSquaredError.forward ctx prediction target).2 ≠ Except.ok r := by
  cases prediction <;> cases target <;>
    simp_all [PyVal.typeName, MeanSquaredError.forward]

/-- Witness for C3: a raw ndarray passed as the prediction. -/
theorem mse_forward_type_error_spot :
    (MeanSquaredError.forward ⟨none⟩ (.ndarray ⟨[1], [0]⟩)
        (.tensor ⟨⟨[1], [0]⟩, false, true⟩)).2 =
      Except.error (mseTypeErrorMsg (PyVal.typeName (α := ℚ) (.ndarray ⟨[1], [0]⟩))
        (PyVal.typeName (α := ℚ) (.tensor ⟨⟨[1], [0]⟩, false, true⟩)))
    ∧ ∀ r : Tensor ℚ,
        (MeanSquaredError.forward ⟨none⟩ (.ndarray ⟨[1], [0]⟩)
          (.tensor ⟨⟨[1], [0]⟩, false, true⟩)).2 ≠ Except.ok r :=
  mse_forward_type_error ⟨none⟩ (.ndarray ⟨[1], [0]⟩)
    (.tensor ⟨⟨[1], [0]⟩, false, true⟩) (by decide)

/-- C10: when `forward` raises its type error, the raise happens before any
write to the context record: the context comes back exactly as it went in
(in particular no `derivative_core` is stored). -/
theorem mse_forward_type_error_ctx_unchanged (ctx : Ctx ℚ) (prediction target : PyVal ℚ)
    (h : ¬(prediction.typeName = "Tensor" ∧ target.typeName = "Tensor")) :
    (MeanSquaredError.forward ctx prediction target).1 = ctx := by
  cases prediction <;> cases target <;>
    simp_all [PyVal.typeName, MeanSquaredError.forward]

/-- Witness for C10: two raw ndarrays, context with no `derivative_core`. -/
theorem mse_forward_type_error_ctx_unchanged_spot :
    (MeanSquaredError.forward ⟨none⟩ (.ndarray ⟨[2], [1, 2]⟩)
        (.ndarray ⟨[2], [3, 4]⟩)).1 = (⟨none⟩ : Ctx ℚ) :=
  mse_forward_type_error_ctx_unchanged ⟨none⟩ (.ndarray ⟨[2], [1, 2]⟩)
    (.ndarray ⟨[2], [3, 4]⟩) (by decide)

/-- C2 counterexample: prediction of shape `[1]` broadcast against a target of
shape `[4, 3]`.  `backward` unbroadcasts only to the cached difference's shape
`[4, 3]`, so the returned gradient has shape `[4, 3]`, not the prediction's
original pre-broadcast shape `[1]`. -/
theorem mse_backward_shape_cex :
    ((MeanSquaredError.backward
        (MeanSquaredError.forward ⟨none⟩
          (.tensor ⟨⟨[1], [1]⟩, true, false⟩)
          (.tensor ⟨⟨[4, 3], List.replicate 12 0⟩, false, true⟩)).1
        ⟨⟨[], [1]⟩, false, true⟩).toOption.map fun g => g.data.shape) = some [4, 3]
    ∧ (⟨⟨[1], [1]⟩, true, false⟩ : Tensor ℚ).data.shape = [1]
    ∧ some [4, 3] ≠ some ([1] : Shape) := by
  refine ⟨by decide, rfl, by decide⟩

/-- C2 amended: the gradient returned by a successful `backward` has exactly
the shape of the cached forward difference `derivative_core` (the broadcast
shape of prediction and target); hence it equals the prediction's original
shape precisely when the prediction was not broadcast during `forward` (its
shape already was the broadcast shape). -/
theorem mse_backward_grad_shape (ctx : Ctx ℚ) (d : NDArray ℚ) (g0 : Tensor ℚ) (d0 : Nat)
    (hc : ctx.derivative_core = some d)
    (h0 : d.shape.head? = some d0)
    (hg : g0.data.shape = []) :
    ∃ g : NDArray ℚ, MeanSquaredError.backward ctx g0 = .ok ⟨g, false, true⟩ ∧
      g.shape = d.shape := by
  simp only [MeanSquaredError.backward, hc, h0, NDArray.mul, NDArray.ewise, NDArray.map, hg,
    broadcastShape_nil_right, unbroadcast, broadcastShape_self, if_pos]
  exact ⟨_, rfl, rfl⟩

/-- Witness for the amended C2: a cached difference of shape `[2]` and a 0-D
upstream gradient produce a gradient of shape `[2]`. -/
theorem mse_backward_grad_shape_spot :
    ∃ g : NDArray ℚ, MeanSquaredError.backward ⟨some ⟨[2], [1, 2]⟩⟩ ⟨⟨[], [1]⟩, false, true⟩ =
        .ok ⟨g, false, true⟩ ∧ g.shape = [2] :=
  mse_backward_grad_shape ⟨some ⟨[2], [1, 2]⟩⟩ ⟨[2], [1, 2]⟩ ⟨⟨[], [1]⟩, false, true⟩ 2
    rfl rfl rfl

/-- C4: under the module's documented shapes (a design matrix `X` with `M`
rows, so `np.dot(X, W)` and the residual are at most 1-D and the transposes
are identities, and a target whose leading axis also has size `M`), the legacy
`loss` equals `sum((X·W - Y)^2) / (2M)`, this value is exactly the data of the
graph-mode `forward` output when `X·W` is passed as the prediction and `Y` as
the target, and `derivative` equals `dot((X·W - Y), X) / M`. -/
theorem mse_legacy_refines_forward
    (X Y W p d g : NDArray ℚ) (m : Nat) (ctx : Ctx ℚ) (rg lf rg2 lf2 : Bool)
    (hm : X.shape.head? = some m)
    (hdot : NDArray.dot X W = some p)
    (hp : p.shape.length ≤ 1)
    (hsub : NDArray.sub p Y = some d)
    (hY : Y.shape.head? = some m)
    (hg : NDArray.dot d X = some g)
    (hgl : g.shape.length ≤ 1) :
    MeanSquaredError.loss X Y W = some ((d.map fun x => x ^ 2).sum / (2 * (m : ℚ)))
    ∧ (MeanSquaredError.forward ctx (.tensor ⟨p, rg, lf⟩) (.tensor ⟨Y, rg2, lf2⟩)).2 =
        Except.ok ⟨NDArray.scalar ((d.map fun x => x ^ 2).sum / (2 * (m : ℚ))), rg, !rg⟩
    ∧ MeanSquaredError.derivative X Y W = some (g.map fun x => x / (m : ℚ)) := by
  have hTp : p.T = p := NDArray.T_of_rank_le_one p hp
  have hTg : g.T = g := NDArray.T_of_rank_le_one g hgl
  refine ⟨?_, ?_, ?_⟩
  · simp [MeanSquaredError.loss, hm, hdot, hTp, hsub]
  · simp [MeanSquaredError.forward, hY, hsub]
  · simp [MeanSquaredError.derivative, hm, hdot, hTp, hsub, hg, hTg]

/-- Witness for C4: `X` the 2×2 identity, `W = [2, 3]`, `Y = [0, 0]`,
so `X·W = [2, 3]`, residual `[2, 3]`, `M = 2`. -/
theorem mse_legacy_refines_forward_spot :
    MeanSquaredError.loss ⟨[2, 2], [1, 0, 0, 1]⟩ ⟨[2], [0, 0]⟩ ⟨[2], [2, 3]⟩ =
        some ((NDArray.map (fun x => x ^ 2) (⟨[2], [2, 3]⟩ : NDArray ℚ)).sum / (2 * ((2 : Nat) : ℚ)))
    ∧ (MeanSquaredError.forward ⟨none⟩
          (.tensor ⟨⟨[2], [2, 3]⟩, true, false⟩) (.tensor ⟨⟨[2], [0, 0]⟩, false, true⟩)).2 =
        Except.ok ⟨NDArray.scalar
          ((NDArray.map (fun x => x ^ 2) (⟨[2], [2, 3]⟩ : NDArray ℚ)).sum / (2 * ((2 : Nat) : ℚ))),
          true, !true⟩
    ∧ MeanSquaredError.derivative ⟨[2, 2], [1, 0, 0, 1]⟩ ⟨[2], [0, 0]⟩ ⟨[2], [2, 3]⟩ =
        some (NDArray.map (fun x => x / ((2 : Nat) : ℚ)) ⟨[2], [2, 3]⟩) :=
  mse_legacy_refines_forward ⟨[2, 2], [1, 0, 0, 1]⟩ ⟨[2], [0, 0]⟩ ⟨[2], [2, 3]⟩
    ⟨[2], [2, 3]⟩ ⟨[2], [2, 3]⟩ ⟨[2], [2, 3]⟩ 2 ⟨none⟩ true false false true
    (by decide)
    (by simp [NDArray.dot, NDArray.get, flattenIdx, List.range_succ])
    (by decide)
    (by simp [NDArray.sub, NDArray.ewise, broadcastShape, broadcastDimsRev, shapeIndices,
      NDArray.getB, NDArray.get, projectIdx, flattenIdx, List.range_succ])
    (by decide)
    (by simp [NDArray.dot, NDArray.get, flattenIdx, List.range_succ])
    (by decide)

/-- C5: whenever a sample's residual `(X·W - Y)_i` is exactly zero, the guarded
elementwise division of `AbsoluteError.derivative` yields 0 for that sample
(never a division by zero), and the derivative is exactly the dot product of
the guarded sign vector with `X`, transposed and divided by `M` — so the
zero-residual sample contributes 0 to every component of the gradient. -/
theorem absolute_error_zero_residual (X Y W p r : NDArray ℚ) (M i : Nat)
    (hM : X.shape.head? = some M)
    (hdot : NDArray.dot X W = some p)
    (hsub : NDArray.sub p.T Y = some r)
    (hi : i < r.data.length)
    (h0 : r.data.getD i 0 = 0) :
    guardedSign (r.data.getD i 0) = 0
    ∧ (r.map guardedSign).data.getD i 0 = 0
    ∧ ∀ g : NDArray ℚ, NDArray.dot (r.map guardedSign) X = some g →
        AbsoluteError.derivative X Y W = some (g.T.map fun x => x / (M : ℚ)) := by
  have h1 : guardedSign (r.data.getD i 0) = 0 := by
    rw [h0]
    simp [guardedSign]
  refine ⟨h1, ?_, ?_⟩
  · have hcomm : (r.map guardedSign).data.getD i 0 = guardedSign (r.data.getD i 0) := by
      simp only [NDArray.map]
      rw [List.getD_eq_getElem _ _ (by simpa using hi), List.getD_eq_getElem _ _ hi,
        List.getElem_map]
    rw [hcomm, h0]
    simp [guardedSign]
  · intro g hgd
    simp [AbsoluteError.derivative, hM, hdot, hsub, hgd]

/-- Witness for C5: `X = [[1], [2]]`, `W = [1]`, `Y = [1, 0]`; the residual is
`[0, 2]` and sample 0 has residual exactly zero. -/
theorem absolute_error_zero_residual_spot :
    guardedSign ((⟨[2], [0, 2]⟩ : NDArray ℚ).data.getD 0 0) = 0
    ∧ ((⟨[2], [0, 2]⟩ : NDArray ℚ).map guardedSign).data.getD 0 0 = 0
    ∧ ∀ g : NDArray ℚ,
        NDArray.dot ((⟨[2], [0, 2]⟩ : NDArray ℚ).map guardedSign) ⟨[2, 1], [1, 2]⟩ = some g →
        AbsoluteError.derivative ⟨[2, 1], [1, 2]⟩ ⟨[2], [1, 0]⟩ ⟨[1], [1]⟩ =
          some (g.T.map fun x => x / ((2 : Nat) : ℚ)) :=
  absolute_error_zero_residual ⟨[2, 1], [1, 2]⟩ ⟨[2], [1, 0]⟩ ⟨[1], [1]⟩
    ⟨[2], [1, 2]⟩ ⟨[2], [0, 2]⟩ 2 0
    (by decide)
    (by simp [NDArray.dot, NDArray.get, flattenIdx, List.range_succ])
    (by simp [NDArray.T, NDArray.sub, NDArray.ewise, broadcastShape, broadcastDimsRev,
      shapeIndices, NDArray.getB, NDArray.get, projectIdx, flattenIdx, List.range_succ])
    (by decide)
    (by simp)

/-- C6: `MeanSquaredLogLoss.loss` never returns the claimed square-root value:
for every input whose leading axis exists, the lookup of the method
`activations` on the Sigmoid transform (whose interface provides only
`activation`) fails, and the call raises `AttributeError`. -/
theorem msl_loss_raises (X Y W : NDArray ℝ) (M : Nat) (hM : X.shape.head? = some M) :
    MeanSquaredLogLoss.loss X Y W =
      Except.error ("AttributeError: type object Sigmoid has no attribute activations") := by
  have hs : sigmoidMethod "activations" = none := by
    unfold sigmoidMethod
    rw [if_neg (by decide)]
  simp [MeanSquaredLogLoss.loss, hM, hs]

/-- Witness for C6 at `X = [0]`, `Y = [0]`, `W = [0]` (inside the claimed
domain `Y > -1`). -/
theorem msl_loss_raises_spot :
    MeanSquaredLogLoss.loss ⟨[1], [0]⟩ ⟨[1], [0]⟩ ⟨[1], [0]⟩ =
      Except.error ("AttributeError: type object Sigmoid has no attribute activations") :=
  msl_loss_raises ⟨[1], [0]⟩ ⟨[1], [0]⟩ ⟨[1], [0]⟩ 1 rfl

/-- C7: at the piecewise boundary `|x - y| = delta` (any `delta > 0`), the
smooth branch `0.5*(x-y)^2` and the linear branch `delta*(|x-y| - 0.5*delta)`
of `Huber.loss` coincide, both equal to `0.5*delta^2`, so the per-element loss
is continuous there. -/
theorem huber_boundary_continuity (delta x y : ℚ) (_hd : 0 < delta)
    (hb : |x - y| = delta) :
    (1 / 2) * (x - y) ^ 2 = delta * (|x - y| - (1 / 2) * delta)
    ∧ Huber.pointLoss delta x y = (1 / 2) * delta ^ 2 := by
  have hsq : (x - y) ^ 2 = delta ^ 2 := by rw [← hb, sq_abs]
  constructor
  · rw [hsq, hb]
    ring
  · unfold Huber.pointLoss
    rw [if_pos (le_of_eq hb), hsq]

/-- Witness for C7 at `delta = 1`, `x = 1`, `y = 0`. -/
theorem huber_boundary_continuity_spot :
    (1 / 2) * ((1 : ℚ) - 0) ^ 2 = 1 * (|(1 : ℚ) - 0| - (1 / 2) * 1)
    ∧ Huber.pointLoss 1 1 0 = (1 / 2) * (1 : ℚ) ^ 2 :=
  huber_boundary_continuity 1 1 0 (by simp) (by simp)

/-- C8: every loss/derivative function of the module is deterministic — two
invocations on identical inputs return identical outputs; no hidden state or
randomness exists (in the embedding all inputs, including the context, are
explicit arguments and the functions are pure). -/
theorem loss_determinism
    (X Y W X2 Y2 W2 : NDArray ℚ) (A B C A2 B2 C2 : NDArray ℝ) (delta delta2 : ℚ)
    (hX : X = X2) (hY : Y = Y2) (hW : W = W2)
    (hA : A = A2) (hB : B = B2) (hC : C = C2) (hdel : delta = delta2) :
    MeanSquaredError.loss X Y W = MeanSquaredError.loss X2 Y2 W2
    ∧ MeanSquaredError.derivative X Y W = MeanSquaredError.derivative X2 Y2 W2
    ∧ LogarithmicError.loss A B C = LogarithmicError.loss A2 B2 C2
    ∧ LogarithmicError.derivative A B C = LogarithmicError.derivative A2 B2 C2
    ∧ AbsoluteError.loss X Y W = AbsoluteError.loss X2 Y2 W2
    ∧ AbsoluteError.derivative X Y W = AbsoluteError.derivative X2 Y2 W2
    ∧ CosineSimilarity.loss A B C = CosineSimilarity.loss A2 B2 C2
    ∧ Log_cosh.logcosh_loss A B = Log_cosh.logcosh_loss A2 B2
    ∧ Log_cosh.derivative_logcosh A B = Log_cosh.derivative_logcosh A2 B2
    ∧ Huber.loss X Y delta = Huber.loss X2 Y2 delta2
    ∧ Huber.derivative X Y delta = Huber.derivative X2 Y2 delta2
    ∧ MeanSquaredLogLoss.loss A B C = MeanSquaredLogLoss.loss A2 B2 C2 := by
  subst hX hY hW hA hB hC hdel
  exact ⟨rfl, rfl, rfl, rfl, rfl, rfl, rfl, rfl, rfl, rfl, rfl, rfl⟩

/-- Witness for C8 at concrete inputs repeated verbatim. -/
theorem loss_determinism_spot :
    MeanSquaredError.loss ⟨[1], [1]⟩ ⟨[1], [1]⟩ ⟨[1], [1]⟩ =
        MeanSquaredError.loss ⟨[1], [1]⟩ ⟨[1], [1]⟩ ⟨[1], [1]⟩
    ∧ MeanSquaredError.derivative ⟨[1], [1]⟩ ⟨[1], [1]⟩ ⟨[1], [1]⟩ =
        MeanSquaredError.derivative ⟨[1], [1]⟩ ⟨[1], [1]⟩ ⟨[1], [1]⟩
    ∧ LogarithmicError.loss ⟨[1], [0]⟩ ⟨[1], [0]⟩ ⟨[1], [0]⟩ =
        LogarithmicError.loss ⟨[1], [0]⟩ ⟨[1], [0]⟩ ⟨[1], [0]⟩
    ∧ LogarithmicError.derivative ⟨[1], [0]⟩ ⟨[1], [0]⟩ ⟨[1], [0]⟩ =
        LogarithmicError.derivative ⟨[1], [0]⟩ ⟨[1], [0]⟩ ⟨[1], [0]⟩
    ∧ AbsoluteError.loss ⟨[1], [1]⟩ ⟨[1], [1]⟩ ⟨[1], [1]⟩ =
        AbsoluteError.loss ⟨[1], [1]⟩ ⟨[1], [1]⟩ ⟨[1], [1]⟩
    ∧ AbsoluteError.derivative ⟨[1], [1]⟩ ⟨[1], [1]⟩ ⟨[1], [1]⟩ =
        AbsoluteError.derivative ⟨[1], [1]⟩ ⟨[1], [1]⟩ ⟨[1], [1]⟩
    ∧ CosineSimilarity.loss ⟨[1], [0]⟩ ⟨[1], [0]⟩ ⟨[1], [0]⟩ =
        CosineSimilarity.loss ⟨[1], [0]⟩ ⟨[1], [0]⟩ ⟨[1], [0]⟩
    ∧ Log_cosh.logcosh_loss ⟨[1], [0]⟩ ⟨[1], [0]⟩ =
        Log_cosh.logcosh_loss ⟨[1], [0]⟩ ⟨[1], [0]⟩
    ∧ Log_cosh.derivative_logcosh ⟨[1], [0]⟩ ⟨[1], [0]⟩ =
        Log_cosh.derivative_logcosh ⟨[1], [0]⟩ ⟨[1], [0]⟩
    ∧ Huber.loss ⟨[1], [1]⟩ ⟨[1], [1]⟩ 1 = Huber.loss ⟨[1], [1]⟩ ⟨[1], [1]⟩ 1
    ∧ Huber.derivative ⟨[1], [1]⟩ ⟨[1], [1]⟩ 1 = Huber.derivative ⟨[1], [1]⟩ ⟨[1], [1]⟩ 1
    ∧ MeanSquaredLogLoss.loss ⟨[1], [0]⟩ ⟨[1], [0]⟩ ⟨[1], [0]⟩ =
        MeanSquaredLogLoss.loss ⟨[1], [0]⟩ ⟨[1], [0]⟩ ⟨[1], [0]⟩ :=
  loss_determinism ⟨[1], [1]⟩ ⟨[1], [1]⟩ ⟨[1], [1]⟩ ⟨[1], [1]⟩ ⟨[1], [1]⟩ ⟨[1], [1]⟩
    ⟨[1], [0]⟩ ⟨[1], [0]⟩ ⟨[1], [0]⟩ ⟨[1], [0]⟩ ⟨[1], [0]⟩ ⟨[1], [0]⟩ 1 1
    rfl rfl rfl rfl rfl rfl rfl

/-- C9: `MSELoss` is a pure alias of `MeanSquaredError` — `forward`,
`backward`, `loss` and `derivative` agree with the parent's on every input. -/
theorem mseloss_alias :
    (∀ (ctx : Ctx ℚ) (p t : PyVal ℚ),
        MSELoss.forward ctx p t = MeanSquaredError.forward ctx p t)
    ∧ (∀ (ctx : Ctx ℚ) (g : Tensor ℚ),
        MSELoss.backward ctx g = MeanSquaredError.backward ctx g)
    ∧ (∀ X Y W : NDArray ℚ, MSELoss.loss X Y W = MeanSquaredError.loss X Y W)
    ∧ (∀ X Y W : NDArray ℚ, MSELoss.derivative X Y W = MeanSquaredError.derivative X Y W) :=
  ⟨fun _ _ _ => rfl, fun _ _ => rfl, fun _ _ _ => rfl, fun _ _ _ => rfl⟩
